import Mathlib

/-!
Verification development for the StepTracking repository.

The embedded code is the goal-and-blocking policy engine
(`BlockingService`, src/unnamed/part_002, second document: the variant with
`trackingMode`/`locationGoal`, lines 183-532) and the geofence gym-session
detector inside `LocationTracker` (src/unnamed/part_004, lines 36-262).

Modelling conventions:
- JavaScript numbers are modelled as `Int` for step counts, minutes and
  millisecond timestamps (all integer-valued in the code paths embedded
  here) and as `Rat` for geographic quantities (radius, accuracy, distance).
- The browser primitive `new URL(url).hostname` is a collaborator, not
  repository code; `shouldBlockWebsite` therefore receives the outcome of
  that parse as an `Option String` (`none` = the constructor threw and the
  `catch` branch runs, `some h` = the raw hostname).
- The haversine `calculateDistance` is real-valued trigonometry; the
  session-detector logic consumes only its output `distanceToGym`, so the
  detector step takes that distance as an input of each observation.
- The single-threaded event model identifies the wall-clock time
  (`new Date()`, `Date.now()`) observed while a geolocation callback runs
  with the delivery time of the sample being processed.
- React hook semantics are modelled explicitly for the session detector:
  the geolocation callback is registered once per tracking start and closes
  over the component state of the registering render, so it reads a frozen
  snapshot while its `setX` calls write the live component state.
- JavaScript truthiness of `x || d` on numbers and strings (`0`, `""`,
  `undefined` are falsy) is made explicit by the `js...Or` helpers.
-/

namespace StepTracking

/-- True when `pat` occurs in `l` as a contiguous sublist. -/
def charsContain (l pat : List Char) : Bool :=
  pat.isPrefixOf l ||
    match l with
    | [] => false
    | _ :: t => charsContain t pat

/-- JavaScript `s.includes(pat)`: `pat` occurs in `s` as a contiguous
substring. -/
def jsIncludes (s pat : String) : Bool :=
  charsContain s.data pat.data

/-- JavaScript `s.toLowerCase()`.  Hostnames and block-list patterns are
ASCII, where `Char.toLower` agrees with the JavaScript lowering. -/
def jsToLower (s : String) : String :=
  String.mk (s.data.map Char.toLower)

/-- The regex replacement `.replace(/^www\./, "")`. -/
def stripWww (s : String) : String :=
  if "www.".data.isPrefixOf s.data then String.mk (s.data.drop 4) else s

/-- The regex replacement `.replace(/^https?:\/\//, "")`. -/
def stripScheme (s : String) : String :=
  if "https://".data.isPrefixOf s.data then String.mk (s.data.drop 8)
  else if "http://".data.isPrefixOf s.data then String.mk (s.data.drop 7)
  else s

/-- JavaScript `Math.max` on two (non-NaN) numbers. -/
def jsMathMax (a b : Rat) : Rat :=
  if a ≤ b then b else a

/-- JavaScript `Math.max` on two integer-valued numbers. -/
def jsMathMaxInt (a b : Int) : Int :=
  if a ≤ b then b else a

/-- JavaScript `x || d` for a number: `0` is falsy. -/
def jsNumOr (x d : Int) : Int :=
  if x = 0 then d else x

/-- JavaScript `obj.field || d` for a possibly missing numeric field. -/
def jsNumFieldOr (x : Option Int) (d : Int) : Int :=
  match x with
  | none => d
  | some v => jsNumOr v d

/-- JavaScript `obj.field || d` for a possibly missing `Rat`-valued field. -/
def jsRatFieldOr (x : Option Rat) (d : Rat) : Rat :=
  match x with
  | none => d
  | some v => if v = 0 then d else v

/-- JavaScript `obj.field || d` for a possibly missing string field:
the empty string is falsy. -/
def jsStrFieldOr (x : Option String) (d : String) : String :=
  match x with
  | none => d
  | some v => if v = "" then d else v

/-- Embeds the `"steps" | "location" | "both"` union type. -/
inductive TrackingMode
  | steps
  | location
  | both
deriving DecidableEq

/-- Embeds the `locationGoal` record inside `BlockingSettings`
(src/unnamed/part_002, lines 212-218). -/
structure LocationGoal where
  gymName : String
  latitude : Rat
  longitude : Rat
  radiusMeters : Rat
  requiredMinutes : Int
deriving DecidableEq

/-- Embeds the persisted `BlockingSettings` interface
(src/unnamed/part_002, lines 206-223). `strictModeActivatedAt?` is an
optional millisecond timestamp. -/
structure BlockingSettings where
  enabled : Bool
  strictMode : Bool
  strictModeActivatedAt : Option Int
  trackingMode : TrackingMode
  dailyGoal : Int
  locationGoal : LocationGoal
  blockedApps : List String
  blockedWebsites : List String
  allowedDomains : List String
  blockingMessage : String
deriving DecidableEq

/-- Embeds `Partial<BlockingSettings>`: each field possibly absent. A present
`strictModeActivatedAt` may itself carry `undefined`, hence the nested
`Option`. -/
structure SettingsPatch where
  enabled : Option Bool := none
  strictMode : Option Bool := none
  strictModeActivatedAt : Option (Option Int) := none
  trackingMode : Option TrackingMode := none
  dailyGoal : Option Int := none
  locationGoal : Option LocationGoal := none
  blockedApps : Option (List String) := none
  blockedWebsites : Option (List String) := none
  allowedDomains : Option (List String) := none
  blockingMessage : Option String := none

/-- The default `locationGoal` value used by `loadSettings`
(src/unnamed/part_002, lines 246-252 and 277-283). -/
def defaultLocationGoal : LocationGoal :=
  { gymName := "My Gym"
    latitude := 0
    longitude := 0
    radiusMeters := 150
    requiredMinutes := 60 }

/-- The default settings returned by `loadSettings` when nothing is saved
(src/unnamed/part_002, lines 271-294). -/
def defaultSettings : BlockingSettings :=
  { enabled := false
    strictMode := false
    strictModeActivatedAt := none
    trackingMode := TrackingMode.steps
    dailyGoal := 10000
    locationGoal := defaultLocationGoal
    blockedApps := ["Social Media", "Games", "Video Streaming"]
    blockedWebsites :=
      ["facebook.com", "twitter.com", "instagram.com", "youtube.com",
       "tiktok.com"]
    allowedDomains := ["localhost", "127.0.0.1"]
    blockingMessage :=
      "This site is blocked until you reach your daily goal!" }

/-- Embeds the `locationGoal` sub-object of a persisted settings record, with
each property possibly missing (src/unnamed/part_002, lines 253-262 repair
each one with `|| default`). -/
structure SavedLocGoal where
  gymName : Option String
  latitude : Option Rat
  longitude : Option Rat
  radiusMeters : Option Rat
  requiredMinutes : Option Int

/-- A parsed persisted settings record as handled by `loadSettings`:
well-formed except that `locationGoal` (or its properties) may be missing.
-/
structure SavedSettings where
  enabled : Bool
  strictMode : Bool
  strictModeActivatedAt : Option Int
  trackingMode : TrackingMode
  dailyGoal : Int
  locationGoal : Option SavedLocGoal
  blockedApps : List String
  blockedWebsites : List String
  allowedDomains : List String
  blockingMessage : String

/-- Embeds `loadSettings` (src/unnamed/part_002, lines 239-295). `none` stands for
"nothing saved, or `JSON.parse` threw" - both paths end in the default
record.  On a parsed record, `locationGoal` is repaired field by field with
`|| default`, and the TESTING override forces `strictMode = false` and
clears `strictModeActivatedAt`. -/
def loadSettings (saved : Option SavedSettings) : BlockingSettings :=
  match saved with
  | some parsed =>
      let lg : LocationGoal :=
        match parsed.locationGoal with
        | none => defaultLocationGoal
        | some g =>
            { gymName := jsStrFieldOr g.gymName "My Gym"
              latitude := jsRatFieldOr g.latitude 0
              longitude := jsRatFieldOr g.longitude 0
              radiusMeters := jsRatFieldOr g.radiusMeters 150
              requiredMinutes := jsNumFieldOr g.requiredMinutes 60 }
      { enabled := parsed.enabled
        strictMode := false
        strictModeActivatedAt := none
        trackingMode := parsed.trackingMode
        dailyGoal := parsed.dailyGoal
        locationGoal := lg
        blockedApps := parsed.blockedApps
        blockedWebsites := parsed.blockedWebsites
        allowedDomains := parsed.allowedDomains
        blockingMessage := parsed.blockingMessage }
  | none => defaultSettings

/-- Embeds `updateSettings` (src/unnamed/part_002, lines 304-352), as a pure
function on the settings record.  The strict-mode lock check is commented
out in the source; what runs is: rewrite `strictMode: true` to `false`
(TESTING override), clear `strictModeActivatedAt` whenever
`strictMode === false` is present, force `locationGoal.radiusMeters` to
150 when a `locationGoal` is supplied, then spread-merge. -/
def updateSettingsPure (s : BlockingSettings) (p : SettingsPatch) :
    BlockingSettings :=
  let p := if p.strictMode = some true then
             { p with strictMode := some false } else p
  let p := if p.strictMode = some false then
             { p with strictModeActivatedAt := some none } else p
  let p := match p.locationGoal with
           | some g => { p with locationGoal := some { g with radiusMeters := 150 } }
           | none => p
  { enabled := p.enabled.getD s.enabled
    strictMode := p.strictMode.getD s.strictMode
    strictModeActivatedAt := p.strictModeActivatedAt.getD s.strictModeActivatedAt
    trackingMode := p.trackingMode.getD s.trackingMode
    dailyGoal := p.dailyGoal.getD s.dailyGoal
    locationGoal := p.locationGoal.getD s.locationGoal
    blockedApps := p.blockedApps.getD s.blockedApps
    blockedWebsites := p.blockedWebsites.getD s.blockedWebsites
    allowedDomains := p.allowedDomains.getD s.allowedDomains
    blockingMessage := p.blockingMessage.getD s.blockingMessage }

/-- The in-memory state of a `BlockingService` instance: the settings plus
the private progress fields (src/unnamed/part_002, lines 226-230). -/
structure EngineState where
  settings : BlockingSettings
  currentSteps : Int
  currentGymTime : Int
  isStepGoalAchieved : Bool
  isGymGoalAchieved : Bool
deriving DecidableEq

/-- Constructor state: `loadSettings` plus zero-initialised progress
fields (src/unnamed/part_002, lines 226-237). -/
def initEngine (saved : Option SavedSettings) : EngineState :=
  { settings := loadSettings saved
    currentSteps := 0
    currentGymTime := 0
    isStepGoalAchieved := false
    isGymGoalAchieved := false }

/-- `updateGoalStatus` (src/unnamed/part_002, lines 370-375): recompute the
two achievement flags.  Note the `|| 60` falsy fallback on
`requiredMinutes`. -/
def updateGoalStatus (st : EngineState) : EngineState :=
  { st with
    isStepGoalAchieved := decide (st.settings.dailyGoal ≤ st.currentSteps)
    isGymGoalAchieved :=
      decide (jsNumOr st.settings.locationGoal.requiredMinutes 60 ≤ st.currentGymTime) }

/-- Embeds `updateStepCount` (src/unnamed/part_002, lines 358-362). -/
def updateStepCount (st : EngineState) (steps : Int) : EngineState :=
  updateGoalStatus { st with currentSteps := steps }

/-- Embeds `updateGymTime` (src/unnamed/part_002, lines 364-368). -/
def updateGymTime (st : EngineState) (minutes : Int) : EngineState :=
  updateGoalStatus { st with currentGymTime := minutes }

/-- The settings-mutating operation of the service: `updateGoalStatus` is
NOT called here. -/
def updateSettings (st : EngineState) (p : SettingsPatch) : EngineState :=
  { st with settings := updateSettingsPure st.settings p }

/-- Embeds `getSettings` (src/unnamed/part_002, lines 354-356) as the value it
exposes; the reference-level shallowness of `{ ...this.settings }` is
modelled separately by `getSettingsObj` below. -/
def getSettings (st : EngineState) : BlockingSettings :=
  st.settings

/-- Embeds the `goalsAchieved` computation shared by `shouldBlockWebsite` and
`getBlockingStatus` (src/unnamed/part_002, lines 383-390). -/
def modeGoalsAchieved (st : EngineState) : Bool :=
  match st.settings.trackingMode with
  | TrackingMode.steps => st.isStepGoalAchieved
  | TrackingMode.location => st.isGymGoalAchieved
  | TrackingMode.both => st.isStepGoalAchieved && st.isGymGoalAchieved

/-- Embeds the normalisation a block-list entry undergoes
(src/unnamed/part_002, lines 409-412): lowercase, strip scheme, strip a
leading `www.`. -/
def normalizePattern (pat : String) : String :=
  stripWww (stripScheme (jsToLower pat))

/-- Embeds one iteration of the `blockedWebsites.some` callback
(src/unnamed/part_002, lines 408-417): bidirectional substring containment
between the normalised hostname and the normalised block-list entry.
`hostname` is already lowercased by the caller. -/
def patternMatches (hostname pat : String) : Bool :=
  jsIncludes (stripWww hostname) (normalizePattern pat) ||
  jsIncludes (normalizePattern pat) (stripWww hostname)

/-- Embeds `shouldBlockWebsite` (src/unnamed/part_002, lines 377-423).
`host?` is the outcome of `new URL(url).hostname`: `none` means the
constructor threw, which the `catch` turns into `false`. -/
def shouldBlockWebsite (st : EngineState) (host? : Option String) : Bool :=
  if !st.settings.enabled then false
  else if modeGoalsAchieved st then false
  else
    match host? with
    | none => false
    | some rawHost =>
        let hostname := jsToLower rawHost
        if st.settings.allowedDomains.any (fun domain => jsIncludes hostname domain)
        then false
        else st.settings.blockedWebsites.any (fun pat => patternMatches hostname pat)

/-- Embeds the `BlockingStatus` snapshot interface
(src/unnamed/part_002, lines 191-204). -/
structure BlockingStatus where
  isBlocked : Bool
  reason : String
  trackingMode : TrackingMode
  currentSteps : Int
  goalSteps : Int
  remainingSteps : Int
  currentGymTime : Int
  goalGymTime : Int
  remainingGymTime : Int
  stepGoalAchieved : Bool
  gymGoalAchieved : Bool
  strictModeTimeRemaining : Option Int
deriving DecidableEq

/-- The 21-day strict-mode lock window in milliseconds
(src/unnamed/part_002, line 453). -/
def strictModeLockDuration : Int := 21 * 24 * 60 * 60 * 1000

/-- Embeds `getBlockingStatus` (src/unnamed/part_002, lines 425-479), with
`Date.now()` passed in as `now`.  The guard
`strictMode && strictModeActivatedAt` requires a truthy (present, nonzero)
timestamp. -/
def getBlockingStatus (st : EngineState) (now : Int) : BlockingStatus :=
  let goalsAchieved := modeGoalsAchieved st
  let reason : String :=
    match st.settings.trackingMode with
    | TrackingMode.steps =>
        if st.isStepGoalAchieved then "Step goal achieved"
        else "Step goal not reached"
    | TrackingMode.location =>
        if st.isGymGoalAchieved then "Gym goal achieved"
        else "Gym time goal not reached"
    | TrackingMode.both =>
        if st.isStepGoalAchieved && st.isGymGoalAchieved then
          "Both goals achieved"
        else if !st.isStepGoalAchieved && !st.isGymGoalAchieved then
          "Both step and gym goals not reached"
        else if !st.isStepGoalAchieved then "Step goal not reached"
        else "Gym goal not reached"
  let strictModeTimeRemaining : Option Int :=
    match st.settings.strictModeActivatedAt with
    | some activatedAt =>
        if st.settings.strictMode = true ∧ activatedAt ≠ 0 then
          some (jsMathMaxInt 0 (strictModeLockDuration - (now - activatedAt)))
        else none
    | none => none
  { isBlocked := st.settings.enabled && !goalsAchieved
    reason := reason
    trackingMode := st.settings.trackingMode
    currentSteps := st.currentSteps
    goalSteps := st.settings.dailyGoal
    remainingSteps := jsMathMaxInt 0 (st.settings.dailyGoal - st.currentSteps)
    currentGymTime := st.currentGymTime
    goalGymTime := jsNumOr st.settings.locationGoal.requiredMinutes 60
    remainingGymTime :=
      jsMathMaxInt 0 (jsNumOr st.settings.locationGoal.requiredMinutes 60 - st.currentGymTime)
    stepGoalAchieved := st.isStepGoalAchieved
    gymGoalAchieved := st.isGymGoalAchieved
    strictModeTimeRemaining := strictModeTimeRemaining }

/-- The public mutating operations of the service. -/
inductive EngineOp
  | updSettings (p : SettingsPatch)
  | updSteps (n : Int)
  | updGym (m : Int)

/-- Apply one public operation. -/
def applyOp (st : EngineState) : EngineOp → EngineState
  | EngineOp.updSettings p => updateSettings st p
  | EngineOp.updSteps n => updateStepCount st n
  | EngineOp.updGym m => updateGymTime st m

/-- Run a sequence of public operations. -/
def runOps (st : EngineState) (ops : List EngineOp) : EngineState :=
  ops.foldl applyOp st

/-- A state the service can actually be in: constructed from some persisted
input (or none) and evolved by any sequence of public operations. -/
def Reachable (st : EngineState) : Prop :=
  ∃ saved ops, st = runOps (initEngine saved) ops

/-- The accuracy-widened detection radius
(src/unnamed/part_004, lines 151-155):
`Math.max(gymLocation.radiusMeters, locationData.accuracy * 1.5)`. -/
def effectiveRadius (radiusMeters accuracy : Rat) : Rat :=
  jsMathMax radiusMeters (accuracy * (3 / 2))

/-- The gym-related component state of `LocationTracker`
(src/unnamed/part_004, lines 51-54): all times in minutes, the session
start a millisecond timestamp. -/
structure GymState where
  isAtGym : Bool
  gymSessionStart : Option Int
  totalGymTimeToday : Int
  currentSessionTime : Int
deriving DecidableEq

/-- What one geolocation sample contributes to the gym-session logic: the
haversine distance from the sample's coordinates to the gym centre, the
reported accuracy, and the wall-clock time at which the callback processes
the sample. -/
structure GymObs where
  distanceToGym : Rat
  accuracy : Rat
  time : Int
deriving DecidableEq

/-- True when `distanceToGym <= effectiveRadius` (src/unnamed/part_004, line 158). -/
def isInside (radiusMeters : Rat) (o : GymObs) : Bool :=
  decide (o.distanceToGym ≤ effectiveRadius radiusMeters o.accuracy)

/-- Embeds the gym-session part of the geolocation `successCallback`
(src/unnamed/part_004, lines 142-199).  The callback is created inside
`startTracking` and handed to `navigator.geolocation.watchPosition` once
per tracking start (the registering `useEffect` depends only on
`isTracking`, lines 56-68 and 224-229), so every `const` it reads -
`isAtGym`, `gymSessionStart`, `totalGymTimeToday` - is the component state
of the registering render, frozen for the lifetime of the watch, while the
`setX` calls write the live component state.  The step therefore takes two
states: `captured`, the registration-time snapshot the callback reads, and
`live`, the state its setters overwrite.  Arrival records the session
start and resets the session clock; departure would fold
`floor((now - start) / 60000)` minutes of the captured session into the
committed daily total and clear the start; a sample while inside only
refreshes the in-progress session clock.  The `localStorage` write and the
`onGymStatusChange` notification carry the same numbers and are not
modelled. -/
def processGymSample (radiusMeters : Rat) (captured live : GymState)
    (o : GymObs) : GymState :=
  let wasAtGym := captured.isAtGym
  let nowAtGym := isInside radiusMeters o
  if nowAtGym && !wasAtGym then
    { live with isAtGym := true, gymSessionStart := some o.time,
                currentSessionTime := 0 }
  else if !nowAtGym && wasAtGym then
    let live1 :=
      match captured.gymSessionStart with
      | some start =>
          { live with totalGymTimeToday :=
              captured.totalGymTimeToday + (o.time - start).fdiv 60000 }
      | none => live
    { live1 with isAtGym := false, gymSessionStart := none,
                 currentSessionTime := 0 }
  else if nowAtGym && wasAtGym then
    match captured.gymSessionStart with
    | some start =>
        { live with currentSessionTime := (o.time - start).fdiv 60000 }
    | none => live
  else live

/-- Process a sequence of samples delivered to one watch registration: the
captured snapshot is fixed when `watchPosition` is called and every
invocation of the callback reads it, while the live component state
evolves underneath. -/
def runGymWatch (radiusMeters : Rat) (captured live : GymState)
    (os : List GymObs) : GymState :=
  os.foldl (processGymSample radiusMeters captured) live

/-- The settings record as the engine actually holds it in the JavaScript
heap: primitive fields inline, the nested `locationGoal` object and the
three string arrays as references. -/
structure SettingsObj where
  enabled : Bool
  strictMode : Bool
  strictModeActivatedAt : Option Int
  trackingMode : TrackingMode
  dailyGoal : Int
  locationGoalRef : Nat
  blockedAppsRef : Nat
  blockedWebsitesRef : Nat
  allowedDomainsRef : Nat
  blockingMessage : String
deriving DecidableEq

/-- The part of the JavaScript heap the settings record can reach. -/
structure Heap where
  locGoals : Nat → LocationGoal
  strArrays : Nat → List String

/-- Overwrite one entry of a heap component. -/
def updFun {α : Type} (f : Nat → α) (i : Nat) (v : α) : Nat → α :=
  fun j => if j = i then v else f j

/-- A caller mutating the nested `locationGoal` object through a held
reference (e.g. `obj.locationGoal.radiusMeters = ...`). -/
def writeLocGoal (h : Heap) (r : Nat) (g : LocationGoal) : Heap :=
  { h with locGoals := updFun h.locGoals r g }

/-- A caller mutating one of the string arrays through a held reference
(e.g. `obj.blockedWebsites.push(...)`). -/
def writeStrArray (h : Heap) (r : Nat) (l : List String) : Heap :=
  { h with strArrays := updFun h.strArrays r l }

/-- Dereference a settings record into the value it denotes. -/
def viewSettings (h : Heap) (o : SettingsObj) : BlockingSettings :=
  { enabled := o.enabled
    strictMode := o.strictMode
    strictModeActivatedAt := o.strictModeActivatedAt
    trackingMode := o.trackingMode
    dailyGoal := o.dailyGoal
    locationGoal := h.locGoals o.locationGoalRef
    blockedApps := h.strArrays o.blockedAppsRef
    blockedWebsites := h.strArrays o.blockedWebsitesRef
    allowedDomains := h.strArrays o.allowedDomainsRef
    blockingMessage := o.blockingMessage }

/-- Embeds the `{ ...this.settings }` copy inside `getSettings` at the heap level
(src/unnamed/part_002, lines 354-356): a new top-level record whose fields
are copied one by one - primitives by value, the nested object and the
arrays by reference. -/
def getSettingsObj (o : SettingsObj) : SettingsObj :=
  { enabled := o.enabled
    strictMode := o.strictMode
    strictModeActivatedAt := o.strictModeActivatedAt
    trackingMode := o.trackingMode
    dailyGoal := o.dailyGoal
    locationGoalRef := o.locationGoalRef
    blockedAppsRef := o.blockedAppsRef
    blockedWebsitesRef := o.blockedWebsitesRef
    allowedDomainsRef := o.allowedDomainsRef
    blockingMessage := o.blockingMessage }

/-- A heap and settings record denoting the default settings, as the
engine holds right after a fresh construction. -/
def engineHeap0 : Heap :=
  { locGoals := fun _ => defaultLocationGoal
    strArrays := fun r =>
      if r = 1 then defaultSettings.blockedApps
      else if r = 2 then defaultSettings.blockedWebsites
      else if r = 3 then defaultSettings.allowedDomains
      else [] }

/-- The engine's internal settings record in `engineHeap0`. -/
def engineObj0 : SettingsObj :=
  { enabled := false
    strictMode := false
    strictModeActivatedAt := none
    trackingMode := TrackingMode.steps
    dailyGoal := 10000
    locationGoalRef := 0
    blockedAppsRef := 1
    blockedWebsitesRef := 2
    allowedDomainsRef := 3
    blockingMessage := defaultSettings.blockingMessage }

/-- A concrete run of the engine: construct with nothing persisted, enable
blocking, report 5000 steps, then lower the daily goal to 1000 through
`updateSettings`.  Because `updateSettings` never calls `updateGoalStatus`,
the stored achievement flags are stale in the resulting state. -/
def staleFlagsState : EngineState :=
  updateSettings
    (updateStepCount
      (updateSettings (initEngine none) { enabled := some true }) 5000)
    { dailyGoal := some 1000 }

/-- A concrete run of the engine whose last operation is a progress update,
so the achievement flags agree with the thresholds: enable blocking, then
report 10000 steps against the default goal of 10000. -/
def syncedFlagsState : EngineState :=
  updateStepCount (updateSettings (initEngine none) { enabled := some true }) 10000

/-- A concrete engine state with blocking enabled and no progress
reported. -/
def enabledFreshState : EngineState :=
  updateSettings (initEngine none) { enabled := some true }

/-- A persisted settings record carrying `radiusMeters = 200`, as an
external writer (or an older build) could have left in the settings slot. -/
def savedRadius200 : SavedSettings :=
  { enabled := false
    strictMode := false
    strictModeActivatedAt := none
    trackingMode := TrackingMode.steps
    dailyGoal := 10000
    locationGoal := some
      { gymName := some "My Gym", latitude := some 0, longitude := some 0,
        radiusMeters := some 200, requiredMinutes := some 60 }
    blockedApps := defaultSettings.blockedApps
    blockedWebsites := defaultSettings.blockedWebsites
    allowedDomains := defaultSettings.allowedDomains
    blockingMessage := defaultSettings.blockingMessage }

/-- An update supplying a `locationGoal` whose radius is 200. -/
def patchRadius200 : SettingsPatch :=
  { locationGoal := some
      { gymName := "My Gym", latitude := 0, longitude := 0,
        radiusMeters := 200, requiredMinutes := 60 } }

/-- A fresh gym-detector state: outside, no open session, nothing
accumulated today. -/
def gymW0 : GymState :=
  { isAtGym := false, gymSessionStart := none, totalGymTimeToday := 0,
    currentSessionTime := 0 }

/-- A sample 100 m from the gym centre with 10 m accuracy, delivered at
millisecond 1000000: inside the 150 m effective radius. -/
def obsArr : GymObs := { distanceToGym := 100, accuracy := 10, time := 1000000 }

/-- A sample still inside the effective radius, one part of the dwell. -/
def obsMid : GymObs := { distanceToGym := 120, accuracy := 10, time := 2000000 }

/-- A sample 500 m away delivered 42 minutes (2520000 ms) after `obsArr`:
outside the effective radius, which the spec expects to trigger a
departure that commits the 42-minute dwell. -/
def obsDep : GymObs := { distanceToGym := 500, accuracy := 10, time := 3520000 }

/-- Helper for C5: under a callback whose captured snapshot says the user
is outside, a single sample never changes the committed daily total - an
inside sample fires the arrival branch (which does not touch the total)
and an outside sample matches no branch. -/
theorem processGymSample_capturedOutside_total (r : Rat) (captured live : GymState)
    (o : GymObs) (hcap : captured.isAtGym = false) :
    (processGymSample r captured live o).totalGymTimeToday =
      live.totalGymTimeToday := by
  cases hin : isInside r o <;> simp [processGymSample, hcap, hin]

/-- Helper for C9: both branches of `loadSettings` force `strictMode` to
`false` and clear the activation timestamp. -/
theorem loadSettings_strictMode_false (saved : Option SavedSettings) :
    (loadSettings saved).strictMode = false ∧
    (loadSettings saved).strictModeActivatedAt = none := by
  cases saved <;> simp [loadSettings, defaultSettings]

/-- Helper for C9: `updateSettings` leaves `strictMode` alone when the
update does not mention it and forces it to `false` whenever it does. -/
theorem updateSettingsPure_strictMode (s : BlockingSettings) (p : SettingsPatch) :
    (updateSettingsPure s p).strictMode =
      (match p.strictMode with
       | none => s.strictMode
       | some _ => false) := by
  rcases hp : p.strictMode with _ | b
  · rcases hl : p.locationGoal with _ | g <;> simp [updateSettingsPure, hp, hl]
  · cases b <;> rcases hl : p.locationGoal with _ | g <;>
      simp [updateSettingsPure, hp, hl]

/-- Helper for C9: no sequence of public operations can make `strictMode`
true once it is false. -/
theorem runOps_strictMode_false (ops : List EngineOp) (st : EngineState)
    (h : st.settings.strictMode = false) :
    (runOps st ops).settings.strictMode = false := by
  induction ops generalizing st with
  | nil => exact h
  | cons op t ih =>
      refine ih (applyOp st op) ?_
      cases op with
      | updSettings p =>
          rw [applyOp, updateSettings, updateSettingsPure_strictMode]
          rcases hp : p.strictMode with _ | b
          · exact h
          · rfl
      | updSteps n => simpa [applyOp, updateStepCount, updateGoalStatus] using h
      | updGym m => simpa [applyOp, updateGymTime, updateGoalStatus] using h

/-- C1 counterexample: in the reachable state `staleFlagsState` the
tracking mode is Steps, blocking is enabled, the hostname `facebook.com`
matches a blocked pattern and no allowed domain, and the step count (5000)
meets the daily goal (1000) - yet `shouldBlockWebsite` still returns
`true`, because lowering the goal through `updateSettings` did not
recompute the stored achievement flag.  This refutes the claim that the
decision depends only on `currentSteps >= dailyGoal`. -/
theorem C1_counterexample :
    staleFlagsState.settings.enabled = true ∧
    staleFlagsState.settings.trackingMode = TrackingMode.steps ∧
    staleFlagsState.settings.blockedWebsites.any
      (fun pat => patternMatches (jsToLower "facebook.com") pat) = true ∧
    staleFlagsState.settings.allowedDomains.any
      (fun domain => jsIncludes (jsToLower "facebook.com") domain) = false ∧
    staleFlagsState.settings.dailyGoal ≤ staleFlagsState.currentSteps ∧
    shouldBlockWebsite staleFlagsState (some "facebook.com") = true := by
  decide

/-- C1 (amended): for a URL whose hostname matches a blocked pattern and no
allowed domain, with blocking enabled, and in a state whose stored
achievement flags are in sync with the thresholds (as holds immediately
after `updateStepCount` or `updateGymTime`), `shouldBlockWebsite` returns
`false` exactly when the goals selected by the tracking mode are achieved:
Steps depends only on `currentSteps >= dailyGoal`, Location only on
`currentGymMinutes >= requiredMinutes` (with the falsy fallback to 60 when
`requiredMinutes` is 0), and Both requires both. -/
theorem C1_modeSelectedGoalsGate (st : EngineState) (host : String)
    (hen : st.settings.enabled = true)
    (hsyncS : st.isStepGoalAchieved = decide (st.settings.dailyGoal ≤ st.currentSteps))
    (hsyncG : st.isGymGoalAchieved =
      decide (jsNumOr st.settings.locationGoal.requiredMinutes 60 ≤ st.currentGymTime))
    (hblocked : st.settings.blockedWebsites.any
      (fun pat => patternMatches (jsToLower host) pat) = true)
    (hallow : st.settings.allowedDomains.any
      (fun domain => jsIncludes (jsToLower host) domain) = false) :
    shouldBlockWebsite st (some host) = false ↔
      (match st.settings.trackingMode with
       | TrackingMode.steps => st.settings.dailyGoal ≤ st.currentSteps
       | TrackingMode.location =>
           jsNumOr st.settings.locationGoal.requiredMinutes 60 ≤ st.currentGymTime
       | TrackingMode.both => st.settings.dailyGoal ≤ st.currentSteps ∧
           jsNumOr st.settings.locationGoal.requiredMinutes 60 ≤ st.currentGymTime) := by
  have h1 : shouldBlockWebsite st (some host) = !(modeGoalsAchieved st) := by
    cases hm : modeGoalsAchieved st <;>
      simp [shouldBlockWebsite, hen, hallow, hblocked, hm]
  rw [h1]
  cases htm : st.settings.trackingMode <;>
    simp [modeGoalsAchieved, htm, hsyncS, hsyncG, decide_eq_true_iff]

/-- C1 witness: in `syncedFlagsState` (Steps mode, goal 10000 met by 10000
steps) the blocked hostname `facebook.com` is not blocked. -/
theorem C1_witness :
    shouldBlockWebsite syncedFlagsState (some "facebook.com") = false := by
  have h := C1_modeSelectedGoalsGate syncedFlagsState "facebook.com" (by decide)
    (by decide) (by decide) (by decide) (by decide)
  refine h.mpr ?_
  show syncedFlagsState.settings.dailyGoal ≤ syncedFlagsState.currentSteps
  decide

/-- C2: with blocking enabled, the mode-selected goals unmet and the
hostname matching no allowed domain, `shouldBlockWebsite` returns `true`
exactly when some block-list entry matches bidirectionally: the normalised
hostname (lowercased, leading `www.` stripped) contains the normalised
pattern (lowercased, scheme and leading `www.` stripped) as a substring, or
conversely. -/
theorem C2_bidirectionalMatching (st : EngineState) (host : String)
    (hen : st.settings.enabled = true)
    (hgoals : modeGoalsAchieved st = false)
    (hallow : st.settings.allowedDomains.any
      (fun domain => jsIncludes (jsToLower host) domain) = false) :
    shouldBlockWebsite st (some host) = true ↔
      ∃ pat ∈ st.settings.blockedWebsites,
        jsIncludes (stripWww (jsToLower host)) (normalizePattern pat) = true ∨
        jsIncludes (normalizePattern pat) (stripWww (jsToLower host)) = true := by
  simp [shouldBlockWebsite, hen, hgoals, hallow, patternMatches,
    List.any_eq_true, Bool.or_eq_true]

/-- C2 witness: in `enabledFreshState` the hostname `facebook.com` is
blocked, through the block-list entry `facebook.com`. -/
theorem C2_witness :
    shouldBlockWebsite enabledFreshState (some "facebook.com") = true :=
  (C2_bidirectionalMatching enabledFreshState "facebook.com" (by decide)
    (by decide) (by decide)).mpr
    ⟨"facebook.com", by decide, Or.inl (by decide)⟩

/-- C3: whenever the parsed lowercase hostname contains some entry of
`allowedDomains` as a substring, `shouldBlockWebsite` returns `false`, in
every engine state - the allow-list check precedes the block-list check. -/
theorem C3_allowListPrecedence (st : EngineState) (host : String)
    (hallow : st.settings.allowedDomains.any
      (fun domain => jsIncludes (jsToLower host) domain) = true) :
    shouldBlockWebsite st (some host) = false := by
  simp [shouldBlockWebsite, hallow]

/-- C3 witness: `localhost` is never blocked on the default allow-list,
here in a state with blocking enabled and no goal met. -/
theorem C3_witness :
    shouldBlockWebsite enabledFreshState (some "localhost") = false :=
  C3_allowListPrecedence enabledFreshState "localhost" (by decide)

/-- C4: when URL parsing fails (the `new URL` constructor throws),
`shouldBlockWebsite` returns `false` in every engine state - the `catch`
absorbs the exception, so nothing propagates to the caller (the embedded
function is total). -/
theorem C4_malformedURLFailsOpen (st : EngineState) :
    shouldBlockWebsite st none = false := by
  unfold shouldBlockWebsite
  split
  · rfl
  · split
    · rfl
    · rfl

/-- C5: evaluation of the code at the claim's failing input.  Because the
registered callback reads the registration-time snapshot, a watch
registered while the detector is outside (captured `isAtGym = false`)
never changes the committed `totalGymTimeToday`, whatever samples arrive
(first conjunct); in particular the claimed Outside-Inside-Inside-Outside
run `obsArr`, `obsMid`, `obsDep` with a 42-minute dwell, started from the
fresh state, leaves the committed total at 0 (second conjunct) and does
not add the `floor((t1 - t0) / 60000) = 42` minutes the claim requires
(third conjunct): the departure branch is unreachable under the stale
closure, contradicting the spec's state machine. -/
theorem C5_staleClosureNoAccumulation :
    (∀ (r : Rat) (start : Option Int) (total cur : Int) (live : GymState)
        (os : List GymObs),
      (runGymWatch r
          { isAtGym := false, gymSessionStart := start,
            totalGymTimeToday := total, currentSessionTime := cur }
          live os).totalGymTimeToday = live.totalGymTimeToday) ∧
    (runGymWatch 150 gymW0 gymW0 [obsArr, obsMid, obsDep]).totalGymTimeToday = 0 ∧
    (runGymWatch 150 gymW0 gymW0 [obsArr, obsMid, obsDep]).totalGymTimeToday ≠
      gymW0.totalGymTimeToday + (obsDep.time - obsArr.time).fdiv 60000 := by
  refine ⟨?_, ?_, ?_⟩
  · intro r start total cur live os
    induction os generalizing live with
    | nil => rfl
    | cons o t ih =>
        have hstep := processGymSample_capturedOutside_total r
          { isAtGym := false, gymSessionStart := start,
            totalGymTimeToday := total, currentSessionTime := cur } live o rfl
        have hrec := ih (processGymSample r
          { isAtGym := false, gymSessionStart := start,
            totalGymTimeToday := total, currentSessionTime := cur } live o)
        simpa [runGymWatch, hstep] using hrec
  · with_unfolding_all decide
  · with_unfolding_all decide

/-- C6 counterexample: starting from a persisted radius of 200 and
supplying a `locationGoal` whose radius is again 200, the round-trip
reports 150 - the supplied value of the field is neither reflected (claim's
accepted case) nor left at its prior value (claim's rejected case). -/
theorem C6_counterexample :
    patchRadius200.locationGoal =
      some { gymName := "My Gym", latitude := 0, longitude := 0,
             radiusMeters := 200, requiredMinutes := 60 } ∧
    (initEngine (some savedRadius200)).settings.locationGoal.radiusMeters = 200 ∧
    (getSettings (updateSettings (initEngine (some savedRadius200))
        patchRadius200)).locationGoal.radiusMeters = 150 := by
  decide

/-- C6 (amended): `updateSettings` followed by `getSettings` reflects every
supplied field except that `strictMode` is forced to `false` whenever
supplied, `strictModeActivatedAt` is cleared whenever `strictMode` is
supplied, and a supplied `locationGoal` is stored with `radiusMeters`
forced to 150; unsupplied fields keep their prior values, and no field is
ever rejected by strict-mode locking (the lock code is commented out). -/
theorem C6_roundTrip (st : EngineState) (p : SettingsPatch) :
    getSettings (updateSettings st p) =
      { enabled := p.enabled.getD st.settings.enabled
        strictMode :=
          match p.strictMode with
          | none => st.settings.strictMode
          | some _ => false
        strictModeActivatedAt :=
          match p.strictMode with
          | some _ => none
          | none => p.strictModeActivatedAt.getD st.settings.strictModeActivatedAt
        trackingMode := p.trackingMode.getD st.settings.trackingMode
        dailyGoal := p.dailyGoal.getD st.settings.dailyGoal
        locationGoal :=
          match p.locationGoal with
          | none => st.settings.locationGoal
          | some g => { g with radiusMeters := 150 }
        blockedApps := p.blockedApps.getD st.settings.blockedApps
        blockedWebsites := p.blockedWebsites.getD st.settings.blockedWebsites
        allowedDomains := p.allowedDomains.getD st.settings.allowedDomains
        blockingMessage := p.blockingMessage.getD st.settings.blockingMessage } := by
  rcases hp : p.strictMode with _ | b
  · rcases hl : p.locationGoal with _ | g <;>
      simp [getSettings, updateSettings, updateSettingsPure, hp, hl]
  · cases b <;> rcases hl : p.locationGoal with _ | g <;>
      simp [getSettings, updateSettings, updateSettingsPure, hp, hl]

/-- C7 counterexample: constructing the engine over a persisted record
whose radius is 200 keeps 200 - `loadSettings` only substitutes 150 for an
absent or falsy radius, so `radiusMeters = 150` is not an invariant of
construction. -/
theorem C7_counterexample :
    (initEngine (some savedRadius200)).settings.locationGoal.radiusMeters = 200 ∧
    (initEngine (some savedRadius200)).settings.locationGoal.radiusMeters ≠ 150 := by
  decide

/-- C7 (amended): `updateSettings` forces `radiusMeters` to 150 exactly
when a `locationGoal` is supplied and otherwise leaves it unchanged, while
`loadSettings` yields 150 only when nothing is persisted, the persisted
`locationGoal` is missing, or its radius is absent or 0 - any other
persisted radius is preserved at construction. -/
theorem C7_radiusPolicy :
    (∀ st : EngineState, ∀ p : SettingsPatch,
      (updateSettings st p).settings.locationGoal.radiusMeters =
        (match p.locationGoal with
         | some _ => (150 : Rat)
         | none => st.settings.locationGoal.radiusMeters)) ∧
    (∀ saved, (loadSettings saved).locationGoal.radiusMeters =
        (match saved with
         | none => (150 : Rat)
         | some sv =>
             match sv.locationGoal with
             | none => (150 : Rat)
             | some g => jsRatFieldOr g.radiusMeters 150)) := by
  constructor
  · intro st p
    rcases hp : p.strictMode with _ | b
    · rcases hl : p.locationGoal with _ | g <;>
        simp [updateSettings, updateSettingsPure, hp, hl]
    · cases b <;> rcases hl : p.locationGoal with _ | g <;>
        simp [updateSettings, updateSettingsPure, hp, hl]
  · intro saved
    rcases saved with _ | sv
    · simp [loadSettings, defaultSettings, defaultLocationGoal]
    · rcases hl : sv.locationGoal with _ | g <;>
        simp [loadSettings, hl, defaultLocationGoal]

/-- C8 counterexample: the object `getSettings` returns shares its nested
`locationGoal` reference and array references with the engine's own
record, so a caller writing through the returned object's `locationGoal`
(radius := 999) or its `blockedWebsites` array changes what the engine's
internal settings denote. -/
theorem C8_counterexample :
    (viewSettings engineHeap0 engineObj0).locationGoal.radiusMeters = 150 ∧
    (viewSettings
        (writeLocGoal engineHeap0 (getSettingsObj engineObj0).locationGoalRef
          { defaultLocationGoal with radiusMeters := 999 })
        engineObj0).locationGoal.radiusMeters = 999 ∧
    (viewSettings engineHeap0 engineObj0).blockedWebsites =
      defaultSettings.blockedWebsites ∧
    (viewSettings
        (writeStrArray engineHeap0 (getSettingsObj engineObj0).blockedWebsitesRef [])
        engineObj0).blockedWebsites = [] := by
  decide

/-- C8 (amended): `{ ...this.settings }` is a shallow copy - the returned
record equals the internal one field for field, including the references to
the nested `locationGoal` object and the three arrays, so any caller write
through those shared references is visible in the engine's settings; only
reassigning top-level fields of the copy leaves the engine unaffected. -/
theorem C8_shallowCopyAliasing (h : Heap) (o : SettingsObj) (g : LocationGoal)
    (l : List String) :
    getSettingsObj o = o ∧
    (viewSettings (writeLocGoal h (getSettingsObj o).locationGoalRef g)
        o).locationGoal = g ∧
    (viewSettings (writeStrArray h (getSettingsObj o).blockedAppsRef l)
        o).blockedApps = l ∧
    (viewSettings (writeStrArray h (getSettingsObj o).blockedWebsitesRef l)
        o).blockedWebsites = l ∧
    (viewSettings (writeStrArray h (getSettingsObj o).allowedDomainsRef l)
        o).allowedDomains = l := by
  refine ⟨rfl, ?_, ?_, ?_, ?_⟩ <;>
    simp [viewSettings, writeLocGoal, writeStrArray, updFun, getSettingsObj]

/-- C9: in every reachable engine state `strictMode` is false -
`loadSettings` forces it to false and clears the activation timestamp on
both branches, `updateSettings` rewrites any supplied `strictMode` to
false before merging - and consequently `getBlockingStatus` never returns
a defined `strictModeTimeRemaining`. -/
theorem C9_strictModeNeverActive (st : EngineState) (hst : Reachable st) :
    st.settings.strictMode = false ∧
    (∀ saved, (loadSettings saved).strictMode = false ∧
      (loadSettings saved).strictModeActivatedAt = none) ∧
    (∀ s p, (updateSettingsPure s p).strictMode =
      (match p.strictMode with
       | none => s.strictMode
       | some _ => false)) ∧
    (∀ now, (getBlockingStatus st now).strictModeTimeRemaining = none) := by
  obtain ⟨saved, ops, rfl⟩ := hst
  have hsm : (runOps (initEngine saved) ops).settings.strictMode = false :=
    runOps_strictMode_false ops (initEngine saved)
      (loadSettings_strictMode_false saved).1
  refine ⟨hsm, loadSettings_strictMode_false, updateSettingsPure_strictMode,
    fun now => ?_⟩
  rcases ha : (runOps (initEngine saved) ops).settings.strictModeActivatedAt with _ | a <;>
    simp [getBlockingStatus, ha, hsm]

/-- C9 witness: the freshly constructed engine is reachable, has
`strictMode = false`, and reports no strict-mode time remaining. -/
theorem C9_witness :
    (initEngine none).settings.strictMode = false ∧
    (getBlockingStatus (initEngine none) 0).strictModeTimeRemaining = none := by
  have h := C9_strictModeNeverActive (initEngine none) ⟨none, [], rfl⟩
  exact ⟨h.1, h.2.2.2 0⟩

/-- C10: for every accuracy >= 0 the detector's effective radius equals
`max(configuredRadiusMeters, accuracyMeters * 1.5)` and is therefore at
least the configured radius. -/
theorem C10_effectiveRadius (radiusMeters accuracy : Rat) (hacc : 0 ≤ accuracy) :
    effectiveRadius radiusMeters accuracy = max radiusMeters (accuracy * (3 / 2)) ∧
    radiusMeters ≤ effectiveRadius radiusMeters accuracy := by
  have h : effectiveRadius radiusMeters accuracy =
      max radiusMeters (accuracy * (3 / 2)) := by
    rw [effectiveRadius, jsMathMax, max_def]
  exact ⟨h, h ▸ le_max_left _ _⟩

/-- C10 witness: at the configured radius 150 and accuracy 25 the effective
radius is the max of 150 and 37.5, hence at least 150. -/
theorem C10_witness :
    (0 : Rat) ≤ 25 ∧
    (effectiveRadius 150 25 = max 150 (25 * (3 / 2)) ∧
      (150 : Rat) ≤ effectiveRadius 150 25) :=
  ⟨by decide, C10_effectiveRadius 150 25 (by decide)⟩

end StepTracking
